import Mathlib

/-!
Shallow embedding of the capacity / upload-commit / facet-ledger core of the
eventcamera-pov API, translated from:
  apps/api/src/modules/guest/guest.service.ts
  apps/api/src/modules/organizer/organizer.service.ts  (incl. gallery-facets.service)
  apps/api/src/cron/media-retention-cron.ts  (facet-era revision)
The relational store is modelled as lists of rows; each SQL statement of the
source becomes one Lean state-transition function (one atomic step).
Timestamps are milliseconds as Int.
-/

deriving instance DecidableEq for Except

namespace EventCam

/-- Media lifecycle status enum, from guest.service.ts
`type MediaStatus = 'pending' | 'uploaded' | 'failed' | 'expired' | 'hidden'`. -/
inductive MediaStatus where
  | pending
  | uploaded
  | failed
  | expired
  | hidden
deriving DecidableEq, Repr

/-- Event lifecycle status values used by the services
(active in gates; closed/archived/purged in the retention query). -/
inductive EventStatus where
  | draft
  | active
  | closed
  | archived
  | purged
deriving DecidableEq, Repr

/-- Stable error codes thrown via AppError in the translated functions. -/
inductive ErrCode where
  | EVENT_NOT_FOUND
  | EVENT_CLOSED
  | INVALID_PIN
  | EVENT_FULL
  | UNAUTHORIZED
  | SESSION_INACTIVE
  | VALIDATION_ERROR
  | UNSUPPORTED_FILE_TYPE
  | FILE_TOO_LARGE
  | UPLOAD_LIMIT_REACHED
  | MEDIA_NOT_FOUND
  | MEDIA_STATE_CONFLICT
  | UPLOAD_NOT_FOUND
  | NOT_FOUND
deriving DecidableEq, Repr

/-- Row of the events table (the columns the embedded functions read). -/
structure EventRow where
  id : String
  slug : String
  status : EventStatus
  maxGuests : Nat
  maxUploadsPerGuest : Nat
  compressionRaw : Bool
  pinHash : Option String
  eventDate : Int
  endDate : Int
  expiresAt : Option Int
deriving DecidableEq, Repr

/-- Row of the device_sessions table. -/
structure SessionRow where
  id : String
  eventId : String
  tokenHash : String
  displayName : Option String
  isActive : Bool
  createdAt : Int
  lastActiveAt : Int
deriving DecidableEq, Repr

/-- Row of the media table. -/
structure MediaRow where
  id : String
  eventId : String
  sessionId : String
  status : MediaStatus
  storagePath : Option String
  thumbPath : Option String
  mimeType : String
  sizeBytes : Nat
  uploaderName : Option String
  tags : List String
  createdAt : Int
  uploadedAt : Option Int
  storageDeletedAt : Option Int
  storageDeleteAttempts : Nat
  storageLastDeleteError : Option String
deriving DecidableEq, Repr

/-- Row of event_uploader_facets / event_tag_facets: key (event_id, value)
with a media_count and an updated_at stamp. -/
structure FacetRow where
  eventId : String
  value : String
  mediaCount : Nat
  updatedAt : Int
deriving DecidableEq, Repr

/-- Membership row of event_organizers. -/
structure OrganizerRow where
  eventId : String
  organizerId : String
deriving DecidableEq, Repr

/-- The shared transactional store: one list per table. -/
structure DbState where
  events : List EventRow
  sessions : List SessionRow
  media : List MediaRow
  organizers : List OrganizerRow
  uploaderFacets : List FacetRow
  tagFacets : List FacetRow
deriving DecidableEq, Repr

/-- Whitespace test used by the trim model. -/
def isSpaceChar (c : Char) : Bool :=
  c = ' ' ∨ c = '\t' ∨ c = '\n' ∨ c = '\r'

/-- Kernel-computable model of JS String.prototype.trim / SQL BTRIM. -/
def trimStr (s : String) : String :=
  String.mk (((s.data.dropWhile isSpaceChar).reverse.dropWhile isSpaceChar).reverse)

/-- Kernel-computable model of JS String.prototype.toLowerCase / SQL LOWER. -/
def toLowerStr (s : String) : String :=
  String.mk (s.data.map Char.toLower)

/-- Kernel-computable model of JS String.prototype.slice(0, n). -/
def takeStr (s : String) (n : Nat) : String :=
  String.mk (s.data.take n)

/-- Model of sha256 hashing (hashValue in guest.service.ts): any injective
function serves; the services only ever compare hash values for equality. -/
def hashValue (s : String) : String :=
  String.append "sha256:" s

/-- Translation of getEventBySlug's SELECT ... WHERE slug = $1 LIMIT 1. -/
def getEventBySlug (db : DbState) (slug : String) : Option EventRow :=
  db.events.find? (fun e => e.slug = slug)

/-- Translation of ensureEventOpenForJoins: passes exactly when the stored
status column equals 'active'. -/
def eventOpenForJoins (e : EventRow) : Bool :=
  e.status = EventStatus.active

/-- Translation of ensureEventAcceptingUploads: same stored-status test. -/
def eventAcceptingUploads (e : EventRow) : Bool :=
  e.status = EventStatus.active

/-- Count of the guest_check CTE in joinEvent:
COUNT(*) FROM device_sessions WHERE event_id = $1 AND is_active = true. -/
def activeGuestCount (db : DbState) (eventId : String) : Nat :=
  (db.sessions.filter (fun s => s.eventId = eventId ∧ s.isActive)).length

/-- Inputs of one join request (application-generated values). -/
structure JoinReq where
  newSessionId : String
  tokenHash : String
  displayName : Option String
  now : Int
deriving DecidableEq, Repr

/-- The session row the INSERT of joinEvent creates: provisional state
is_active = true, timestamps defaulted to now. -/
def joinRow (e : EventRow) (req : JoinReq) : SessionRow :=
  { id := req.newSessionId
    eventId := e.id
    tokenHash := req.tokenHash
    displayName := req.displayName
    isActive := true
    createdAt := req.now
    lastActiveAt := req.now }

/-- The single atomic INSERT ... SELECT ... WHERE guest_check.current_count <
max_guests statement of joinEvent: the count and the conditional insert are one
statement, so one state transition. Returns the inserted row when admitted. -/
def joinInsert (db : DbState) (e : EventRow) (req : JoinReq) :
    DbState × Option SessionRow :=
  if activeGuestCount db e.id < e.maxGuests then
    ({ db with sessions := db.sessions ++ [joinRow e req] }, some (joinRow e req))
  else
    (db, none)

/-- Translation of joinEvent (validation of slug/pin formats elided; the
lookup, the status gate, the pin check, the atomic insert and the EVENT_FULL
mapping are kept in source order). -/
def joinEvent (db : DbState) (slug : String) (pin : Option String)
    (req : JoinReq) : DbState × Except ErrCode SessionRow :=
  match getEventBySlug db slug with
  | none => (db, Except.error ErrCode.EVENT_NOT_FOUND)
  | some e =>
    if ¬ eventOpenForJoins e then
      (db, Except.error ErrCode.EVENT_CLOSED)
    else
      match e.pinHash with
      | some h =>
        match pin with
        | none => (db, Except.error ErrCode.INVALID_PIN)
        | some p =>
          if hashValue p ≠ h then
            (db, Except.error ErrCode.INVALID_PIN)
          else
            match joinInsert db e req with
            | (db1, some row) => (db1, Except.ok row)
            | (db1, none) => (db1, Except.error ErrCode.EVENT_FULL)
      | none =>
        match joinInsert db e req with
        | (db1, some row) => (db1, Except.ok row)
        | (db1, none) => (db1, Except.error ErrCode.EVENT_FULL)

/-- Run a sequence of join attempts (the store serializes the atomic
statements, so any interleaving of K concurrent requests is some order of K
sequential steps). Returns the final state with the per-request outcomes. -/
def runJoins (db : DbState) (slug : String) (pin : Option String) :
    List JoinReq → DbState × List (Except ErrCode SessionRow)
  | [] => (db, [])
  | req :: rest =>
    let (db1, r) := joinEvent db slug pin req
    let (db2, rs) := runJoins db1 slug pin rest
    (db2, r :: rs)

/-- The quota predicate of the quota_check CTE in createUpload and of
getSessionUploadCount: status IN ('pending', 'uploaded'). -/
def countsTowardQuota (s : MediaStatus) : Bool :=
  s = MediaStatus.pending ∨ s = MediaStatus.uploaded

/-- Translation of getSessionUploadCount:
COUNT(*) FROM media WHERE device_session_id = $1 AND status IN
('pending', 'uploaded'). -/
def getSessionUploadCount (db : DbState) (sessionId : String) : Nat :=
  (db.media.filter (fun m => m.sessionId = sessionId ∧ countsTowardQuota m.status)).length

/-! Gallery facets service (gallery-facets.service.ts). -/

/-- Deduplication keeping first occurrences, as the JS spread of a Set does. -/
def dedupAux : List String → List String → List String
  | [], _ => []
  | x :: xs, seen => if x ∈ seen then dedupAux xs seen else x :: dedupAux xs (x :: seen)

/-- First-occurrence dedup over a string list. -/
def dedupFirst (l : List String) : List String :=
  dedupAux l []

/-- Translation of normalizeUploaderName: trim; empty or null becomes null.
Also models SQL NULLIF(BTRIM(x), ''). Uploader names are NOT lowercased. -/
def normalizeUploaderName (v : Option String) : Option String :=
  match v with
  | none => none
  | some s =>
    let t := trimStr s
    if t = "" then none else some t

/-- Translation of normalizeTags in gallery-facets.service.ts: trim and
lowercase each tag, drop empties, dedup keeping first occurrences. -/
def normalizeTagsFacet (vs : List String) : List String :=
  dedupFirst ((vs.map (fun v => toLowerStr (trimStr v))).filter (fun t => t ≠ ""))

/-- Translation of isFacetTrackedMediaStatus / the rebuild queries' predicate
status IN ('uploaded', 'hidden'). -/
def facetTracked (s : MediaStatus) : Bool :=
  s = MediaStatus.uploaded ∨ s = MediaStatus.hidden

/-- One INSERT ... ON CONFLICT DO UPDATE SET media_count = media_count + 1 on
a facet family: create the (event, value) row at 1 or add one to it. -/
def upsertFacet (rows : List FacetRow) (eid val : String) (now : Int) : List FacetRow :=
  if rows.any (fun r => r.eventId = eid ∧ r.value = val) then
    rows.map (fun r =>
      if r.eventId = eid ∧ r.value = val then
        { r with mediaCount := r.mediaCount + 1, updatedAt := now }
      else r)
  else
    rows ++ [{ eventId := eid, value := val, mediaCount := 1, updatedAt := now }]

/-- One UPDATE ... SET media_count = GREATEST(media_count - 1, 0) followed by
DELETE ... WHERE media_count <= 0 on the same (event, value) key. Nat
subtraction is the guarded floor at zero. -/
def decrementFacet (rows : List FacetRow) (eid val : String) (now : Int) : List FacetRow :=
  (rows.map (fun r =>
      if r.eventId = eid ∧ r.value = val then
        { r with mediaCount := r.mediaCount - 1, updatedAt := now }
      else r)).filter
    (fun r => ¬ (r.eventId = eid ∧ r.value = val ∧ r.mediaCount = 0))

/-- Translation of addMediaToGalleryFacets: upsert the uploader facet when the
normalized name is non-null, then upsert each normalized tag facet. -/
def addMediaToGalleryFacets (db : DbState) (eid : String) (name : Option String)
    (tags : List String) (now : Int) : DbState :=
  let db1 :=
    match normalizeUploaderName name with
    | some n => { db with uploaderFacets := upsertFacet db.uploaderFacets eid n now }
    | none => db
  { db1 with
    tagFacets := (normalizeTagsFacet tags).foldl (fun rows t => upsertFacet rows eid t now) db1.tagFacets }

/-- Translation of removeMediaFromGalleryFacets: guarded decrement plus
delete-at-zero for the uploader facet and for each normalized tag facet. -/
def removeMediaFromGalleryFacets (db : DbState) (eid : String) (name : Option String)
    (tags : List String) (now : Int) : DbState :=
  let db1 :=
    match normalizeUploaderName name with
    | some n => { db with uploaderFacets := decrementFacet db.uploaderFacets eid n now }
    | none => db
  { db1 with
    tagFacets := (normalizeTagsFacet tags).foldl (fun rows t => decrementFacet rows eid t now) db1.tagFacets }

/-- One step of SQL GROUP BY counting: add one key occurrence to the running
(event, value, count) groups. -/
def bumpKey : List (String × String × Nat) → String × String → List (String × String × Nat)
  | [], k => [(k.1, k.2, 1)]
  | (e, v, c) :: rest, k =>
    if e = k.1 ∧ v = k.2 then (e, v, c + 1) :: rest else (e, v, c) :: bumpKey rest k

/-- GROUP BY key with COUNT(*): counts of each (event, value) key. -/
def groupCount (keys : List (String × String)) : List (String × String × Nat) :=
  keys.foldl bumpKey []

/-- The uploader value the rebuild query derives per media row:
COALESCE(NULLIF(BTRIM(m.uploader_name), ''), NULLIF(BTRIM(ds.display_name), ''))
via LEFT JOIN device_sessions. -/
def rebuildUploaderKey (sessions : List SessionRow) (m : MediaRow) : Option String :=
  match normalizeUploaderName m.uploaderName with
  | some n => some n
  | none =>
    normalizeUploaderName ((sessions.find? (fun s => s.id = m.sessionId)).bind (fun s => s.displayName))

/-- Uploader-facet groups recomputed by rebuildGalleryFacets from media rows
with status IN ('uploaded', 'hidden') and a non-null derived uploader name. -/
def rebuildUploaderCounts (media : List MediaRow) (sessions : List SessionRow) :
    List (String × String × Nat) :=
  groupCount ((media.filter (fun m => facetTracked m.status)).filterMap
    (fun m => (rebuildUploaderKey sessions m).map (fun n => (m.eventId, n))))

/-- Tag-facet groups recomputed by rebuildGalleryFacets: one occurrence per
unnested tag with LOWER(BTRIM(tag)) non-empty, from media rows with status IN
('uploaded', 'hidden'). -/
def rebuildTagCounts (media : List MediaRow) : List (String × String × Nat) :=
  groupCount ((media.filter (fun m => facetTracked m.status)).flatMap
    (fun m => ((m.tags.map (fun t => toLowerStr (trimStr t))).filter (fun t => t ≠ "")).map
      (fun t => (m.eventId, t))))

/-- Translation of rebuildGalleryFacets: in one transaction, TRUNCATE both
facet tables and re-insert the grouped counts computed from media rows. -/
def rebuildGalleryFacets (db : DbState) (now : Int) : DbState :=
  { db with
    uploaderFacets := (rebuildUploaderCounts db.media db.sessions).map
      (fun p => { eventId := p.1, value := p.2.1, mediaCount := p.2.2, updatedAt := now }),
    tagFacets := (rebuildTagCounts db.media).map
      (fun p => { eventId := p.1, value := p.2.1, mediaCount := p.2.2, updatedAt := now }) }

/-! Guest session resolution and the token-authenticated operations. -/

/-- The touched CTE of resolveSessionFromToken: UPDATE device_sessions SET
last_active_at = now() WHERE token_hash matches. -/
def touchSessions (db : DbState) (h : String) (now : Int) : DbState :=
  { db with
    sessions := db.sessions.map (fun (s : SessionRow) =>
      if s.tokenHash = h then { s with lastActiveAt := now } else s) }

/-- Translation of resolveSessionFromToken: the touched CTE updates
last_active_at on every session matching the token hash (this write happens
whatever the outcome), the outer SELECT joins events and takes the first row,
then the is_active check is applied. -/
def resolveSessionFromToken (db : DbState) (token : String) (now : Int) :
    DbState × Except ErrCode (SessionRow × EventRow) :=
  let h := hashValue token
  let db1 := touchSessions db h now
  let joined := (db1.sessions.filter (fun s => s.tokenHash = h)).filterMap
    (fun (s : SessionRow) =>
      (db1.events.find? (fun e => e.id = s.eventId)).map (fun (e : EventRow) => (s, e)))
  (db1,
    match joined.head? with
    | none => Except.error ErrCode.UNAUTHORIZED
    | some (s, e) =>
      if ¬ s.isActive then Except.error ErrCode.SESSION_INACTIVE
      else Except.ok (s, e))

/-- Maximum display-name length accepted by ensureDisplayName. -/
def DISPLAY_NAME_MAX_LENGTH : Nat := 64

/-- Translation of ensureDisplayName: trim, empty/null becomes null, overlong
input is a validation error. -/
def ensureDisplayName (v : Option String) : Except ErrCode (Option String) :=
  match v with
  | none => Except.ok none
  | some s =>
    let t := trimStr s
    if t = "" then Except.ok none
    else if t.length > DISPLAY_NAME_MAX_LENGTH then Except.error ErrCode.VALIDATION_ERROR
    else Except.ok (some t)

/-- Maximum tag count accepted by ensureTags. -/
def TAG_MAX_COUNT : Nat := 8

/-- Maximum tag length accepted by ensureTags. -/
def TAG_MAX_LENGTH : Nat := 32

/-- Translation of ensureTags: bounded count, per-tag trim + lowercase with a
length bound, empties dropped, first-occurrence dedup. -/
def ensureTags (tags : List String) : Except ErrCode (List String) :=
  if tags.length > TAG_MAX_COUNT then Except.error ErrCode.VALIDATION_ERROR
  else if (tags.map (fun t => toLowerStr (trimStr t))).any
      (fun t => t ≠ "" ∧ t.length > TAG_MAX_LENGTH) then
    Except.error ErrCode.VALIDATION_ERROR
  else
    Except.ok (dedupFirst ((tags.map (fun t => toLowerStr (trimStr t))).filter (fun t => t ≠ "")))

/-- File-family split of FILE_TYPE_RULES. -/
inductive RawFamily where
  | standard
  | raw
deriving DecidableEq, Repr

/-- One FILE_TYPE_RULES entry. -/
structure FileTypeRule where
  extension : String
  family : RawFamily
deriving DecidableEq, Repr

/-- Translation of the FILE_TYPE_RULES table. -/
def FILE_TYPE_RULES : List (String × FileTypeRule) :=
  [ ("image/jpeg", { extension := "jpg", family := RawFamily.standard }),
    ("image/png", { extension := "png", family := RawFamily.standard }),
    ("image/webp", { extension := "webp", family := RawFamily.standard }),
    ("image/heic", { extension := "heic", family := RawFamily.standard }),
    ("image/heif", { extension := "heif", family := RawFamily.standard }),
    ("image/x-canon-cr2", { extension := "cr2", family := RawFamily.raw }),
    ("application/x-canon-cr2", { extension := "cr2", family := RawFamily.raw }),
    ("image/x-nikon-nef", { extension := "nef", family := RawFamily.raw }),
    ("application/x-nikon-nef", { extension := "nef", family := RawFamily.raw }),
    ("image/x-sony-arw", { extension := "arw", family := RawFamily.raw }),
    ("application/x-sony-arw", { extension := "arw", family := RawFamily.raw }),
    ("image/x-adobe-dng", { extension := "dng", family := RawFamily.raw }),
    ("application/x-adobe-dng", { extension := "dng", family := RawFamily.raw }),
    ("image/x-olympus-orf", { extension := "orf", family := RawFamily.raw }),
    ("application/x-olympus-orf", { extension := "orf", family := RawFamily.raw }),
    ("image/x-panasonic-rw2", { extension := "rw2", family := RawFamily.raw }),
    ("application/x-panasonic-rw2", { extension := "rw2", family := RawFamily.raw }) ]

/-- Translation of ensureFileTypeForMode (compressionRaw = false is
'compressed' mode, true is 'raw' mode). -/
def ensureFileTypeForMode (fileType : String) (rawMode : Bool) :
    Except ErrCode FileTypeRule :=
  let normalized := toLowerStr (trimStr fileType)
  match (FILE_TYPE_RULES.find? (fun p => p.1 = normalized)).map (fun p => p.2) with
  | none => Except.error ErrCode.UNSUPPORTED_FILE_TYPE
  | some rule =>
    if ¬ rawMode then
      if normalized = "image/jpeg" ∨ normalized = "image/png" ∨ normalized = "image/webp" then
        Except.ok rule
      else Except.error ErrCode.UNSUPPORTED_FILE_TYPE
    else
      if rule.family = RawFamily.raw then Except.ok rule
      else if normalized = "image/jpeg" ∨ normalized = "image/png" ∨
          normalized = "image/webp" ∨ normalized = "image/heic" ∨
          normalized = "image/heif" then
        Except.ok rule
      else Except.error ErrCode.UNSUPPORTED_FILE_TYPE

/-- Size ceilings MAX_FILE_SIZE_COMPRESSED / RAW_STANDARD / RAW_FAMILY. -/
def resolveMaxFileSize (rawMode : Bool) (family : RawFamily) : Nat :=
  if ¬ rawMode then 5 * 1024 * 1024
  else if family = RawFamily.raw then 25 * 1024 * 1024
  else 15 * 1024 * 1024

/-- Inputs of one createUpload request. -/
structure UploadReq where
  fileType : String
  fileSize : Nat
  tags : List String
  newMediaId : String
  now : Int
deriving DecidableEq, Repr

/-- Translation of createUpload: input validation, session resolution, the
stored-status upload gate, file-type and size checks, then the single atomic
quota_check + conditional INSERT statement; no row back means
UPLOAD_LIMIT_REACHED. Returns media id and remaining_uploads. -/
def createUpload (db : DbState) (token : String) (req : UploadReq) :
    DbState × Except ErrCode (String × Nat) :=
  let fileType := toLowerStr (trimStr req.fileType)
  if fileType = "" then (db, Except.error ErrCode.VALIDATION_ERROR)
  else if req.fileSize < 1 then (db, Except.error ErrCode.VALIDATION_ERROR)
  else
    match ensureTags req.tags with
    | Except.error err => (db, Except.error err)
    | Except.ok tags =>
      match resolveSessionFromToken db token req.now with
      | (db1, Except.error err) => (db1, Except.error err)
      | (db1, Except.ok (s, e)) =>
        if ¬ eventAcceptingUploads e then (db1, Except.error ErrCode.EVENT_CLOSED)
        else
          match ensureFileTypeForMode fileType e.compressionRaw with
          | Except.error err => (db1, Except.error err)
          | Except.ok rule =>
            let maxSize := resolveMaxFileSize e.compressionRaw rule.family
            if req.fileSize > maxSize then (db1, Except.error ErrCode.FILE_TOO_LARGE)
            else
              let cnt := getSessionUploadCount db1 s.id
              if cnt < e.maxUploadsPerGuest then
                let row : MediaRow :=
                  { id := req.newMediaId
                    eventId := e.id
                    sessionId := s.id
                    status := MediaStatus.pending
                    storagePath := some (e.id ++ "/" ++ req.newMediaId ++ "." ++ rule.extension)
                    thumbPath := some (e.id ++ "/" ++ req.newMediaId ++ ".jpg")
                    mimeType := fileType
                    sizeBytes := req.fileSize
                    uploaderName := s.displayName
                    tags := tags
                    createdAt := req.now
                    uploadedAt := none
                    storageDeletedAt := none
                    storageDeleteAttempts := 0
                    storageLastDeleteError := none }
                ({ db1 with media := db1.media ++ [row] },
                  Except.ok (req.newMediaId, e.maxUploadsPerGuest - (cnt + 1)))
              else
                (db1, Except.error ErrCode.UPLOAD_LIMIT_REACHED)

/-- Translation of completeUpload: resolve session, load the row by id and
owner, reject non-pending with MEDIA_STATE_CONFLICT, verify the blob exists,
then in one transaction flip status = 'uploaded' guarded by status = 'pending'
(no row means MEDIA_STATE_CONFLICT, transaction rolled back) and increment the
gallery facets for the frozen uploader name and tags. -/
def completeUpload (db : DbState) (token : String) (mediaId : String) (now : Int)
    (storageHas : String → Bool) : DbState × Except ErrCode String :=
  match resolveSessionFromToken db token now with
  | (db1, Except.error err) => (db1, Except.error err)
  | (db1, Except.ok (s, _e)) =>
    match db1.media.find? (fun m => m.id = mediaId ∧ m.sessionId = s.id) with
    | none => (db1, Except.error ErrCode.MEDIA_NOT_FOUND)
    | some media =>
      if media.status ≠ MediaStatus.pending then
        (db1, Except.error ErrCode.MEDIA_STATE_CONFLICT)
      else
      let objectExists : Bool :=
        match media.storagePath with
        | some p => storageHas p
        | none => false
      if ¬ objectExists then
        (db1, Except.error ErrCode.UPLOAD_NOT_FOUND)
      else
        match db1.media.find? (fun m =>
            m.id = mediaId ∧ m.sessionId = s.id ∧ m.status = MediaStatus.pending) with
        | none => (db1, Except.error ErrCode.MEDIA_STATE_CONFLICT)
        | some target =>
          let db2 := { db1 with
            media := db1.media.map (fun m =>
              if m.id = mediaId ∧ m.sessionId = s.id ∧ m.status = MediaStatus.pending then
                { m with status := MediaStatus.uploaded, uploadedAt := some now }
              else m) }
          (addMediaToGalleryFacets db2 target.eventId target.uploaderName target.tags now,
            Except.ok mediaId)

/-- Translation of getMySession: resolve the token, then report the session,
its event and the current upload count; no further writes. -/
def getMySession (db : DbState) (token : String) (now : Int) :
    DbState × Except ErrCode (SessionRow × EventRow × Nat) :=
  match resolveSessionFromToken db token now with
  | (db1, Except.error err) => (db1, Except.error err)
  | (db1, Except.ok (s, e)) => (db1, Except.ok (s, e, getSessionUploadCount db1 s.id))

/-- Translation of patchMySession: the display_name field must be present
(validated before the token is resolved), then the session row is updated. -/
def patchMySession (db : DbState) (token : String) (provided : Bool)
    (newName : Option String) (now : Int) : DbState × Except ErrCode SessionRow :=
  if ¬ provided then (db, Except.error ErrCode.VALIDATION_ERROR)
  else
    match ensureDisplayName newName with
    | Except.error err => (db, Except.error err)
    | Except.ok dn =>
      match resolveSessionFromToken db token now with
      | (db1, Except.error err) => (db1, Except.error err)
      | (db1, Except.ok (s, _e)) =>
        let db2 := { db1 with
          sessions := db1.sessions.map (fun r =>
            if r.id = s.id then { r with displayName := dn, lastActiveAt := now } else r) }
        (db2, Except.ok { s with displayName := dn, lastActiveAt := now })

/-- Translation of getMyUploads: resolve the token, then list the session's
media rows and the count of rows with status 'uploaded'; read-only (ordering
and signed-URL generation elided). -/
def getMyUploads (db : DbState) (token : String) (now : Int) :
    DbState × Except ErrCode (List MediaRow × Nat) :=
  match resolveSessionFromToken db token now with
  | (db1, Except.error err) => (db1, Except.error err)
  | (db1, Except.ok (s, _e)) =>
    let rows := db1.media.filter (fun m => m.sessionId = s.id)
    (db1, Except.ok (rows, (rows.filter (fun m => m.status = MediaStatus.uploaded)).length))

/-! Organizer media moderation (organizer.service.ts). -/

/-- The EXISTS (SELECT 1 FROM event_organizers ...) authorization subquery. -/
def organizerOwnsEvent (db : DbState) (eid oid : String) : Bool :=
  db.organizers.any (fun o => o.eventId = eid ∧ o.organizerId = oid)

/-- Translation of hideMedia: UPDATE media SET status = 'hidden' WHERE id AND
event AND the organizer EXISTS check; note there is no status precondition. -/
def hideMedia (db : DbState) (oid eid mid : String) : DbState × Except ErrCode String :=
  let pred := fun (m : MediaRow) =>
    m.id = mid ∧ m.eventId = eid ∧ organizerOwnsEvent db m.eventId oid
  if db.media.any (fun m => pred m) then
    ({ db with media := db.media.map (fun m =>
        if pred m then { m with status := MediaStatus.hidden } else m) },
      Except.ok mid)
  else
    (db, Except.error ErrCode.NOT_FOUND)

/-- Translation of unhideMedia: UPDATE media SET status = 'uploaded' with the
same WHERE clause; again no status precondition. -/
def unhideMedia (db : DbState) (oid eid mid : String) : DbState × Except ErrCode String :=
  let pred := fun (m : MediaRow) =>
    m.id = mid ∧ m.eventId = eid ∧ organizerOwnsEvent db m.eventId oid
  if db.media.any (fun m => pred m) then
    ({ db with media := db.media.map (fun m =>
        if pred m then { m with status := MediaStatus.uploaded } else m) },
      Except.ok mid)
  else
    (db, Except.error ErrCode.NOT_FOUND)

/-- Translation of bulkHideMedia: the UPDATE additionally requires
status <> 'hidden'; returns the number of rows hidden. -/
def bulkHideMedia (db : DbState) (oid eid : String) (mids : List String) :
    DbState × Nat :=
  let pred := fun (m : MediaRow) =>
    m.eventId = eid ∧ m.id ∈ mids ∧ m.status ≠ MediaStatus.hidden ∧
      organizerOwnsEvent db m.eventId oid
  ({ db with media := db.media.map (fun m =>
      if pred m then { m with status := MediaStatus.hidden } else m) },
    (db.media.filter (fun m => pred m)).length)

/-! Media retention cron (facet-era revision of media-retention-cron.ts). -/

/-- RETENTION_DAYS constant of the cron. -/
def RETENTION_DAYS : Nat := 30

/-- Milliseconds in one day. -/
def dayMs : Int := 86400000

/-- Milliseconds in one minute. -/
def minuteMs : Int := 60000

/-- Row shape selected by fetchCleanupCandidates, with
COALESCE(m.uploader_name, ds.display_name) resolved at selection time. -/
structure MediaCleanupRow where
  mediaId : String
  eventId : String
  storagePath : Option String
  thumbPath : Option String
  status : MediaStatus
  uploaderName : Option String
  tags : List String
deriving DecidableEq, Repr

/-- Projection of a media row to the cleanup row the cron selects. -/
def cleanupRowOf (db : DbState) (m : MediaRow) : MediaCleanupRow :=
  { mediaId := m.id
    eventId := m.eventId
    storagePath := m.storagePath
    thumbPath := m.thumbPath
    status := m.status
    uploaderName :=
      match m.uploaderName with
      | some n => some n
      | none => (db.sessions.find? (fun s => s.id = m.sessionId)).bind (fun s => s.displayName)
    tags := m.tags }

/-- The retention bound now >= COALESCE(e.expires_at, now()) + 30 days: a null
expires_at coalesces to now, which never satisfies the bound. -/
def retentionDue (expiresAt : Option Int) (now : Int) : Bool :=
  match expiresAt with
  | some x => decide (x + (RETENTION_DAYS : Int) * dayMs ≤ now)
  | none => false

/-- The WHERE clause of fetchCleanupCandidates: storage not yet deleted, a
storage path present, any media status, event status closed/archived/purged,
and now at least RETENTION_DAYS past the event's expires_at. -/
def isCleanupCandidate (e : EventRow) (m : MediaRow) (now : Int) : Bool :=
  m.storageDeletedAt = none ∧ m.storagePath ≠ none ∧
    (m.status = MediaStatus.uploaded ∨ m.status = MediaStatus.hidden ∨
      m.status = MediaStatus.pending ∨ m.status = MediaStatus.failed ∨
      m.status = MediaStatus.expired) ∧
    (e.status = EventStatus.closed ∨ e.status = EventStatus.archived ∨
      e.status = EventStatus.purged) ∧
    retentionDue e.expiresAt now = true

/-- Translation of markCleanupSuccess: in one transaction, flip the row to
'expired' with a deletion stamp and cleared error, and, when the selected
status was facet-tracked, decrement the gallery facets for its uploader and
tags. -/
def markCleanupSuccess (db : DbState) (item : MediaCleanupRow) (now : Int) : DbState :=
  let db1 := { db with
    media := db.media.map (fun m =>
      if m.id = item.mediaId then
        { m with
          status := MediaStatus.expired
          storageDeletedAt := some now
          storageLastDeleteError := none }
      else m) }
  if facetTracked item.status then
    removeMediaFromGalleryFacets db1 item.eventId item.uploaderName item.tags now
  else db1

/-- Translation of markCleanupFailure: increment the delete-attempt counter
and record the (truncated) error message; nothing else changes. -/
def markCleanupFailure (db : DbState) (mediaId : String) (msg : String) : DbState :=
  { db with
    media := db.media.map (fun m =>
      if m.id = mediaId then
        { m with
          storageDeleteAttempts := m.storageDeleteAttempts + 1
          storageLastDeleteError := some (takeStr msg 2000) }
      else m) }

/-- One iteration of the cleanup loop in runMediaRetentionCleanupOnce: blob
deletion succeeded (deleteOk) leads to markCleanupSuccess, a thrown storage
error leads to markCleanupFailure. -/
def cleanupItem (db : DbState) (item : MediaCleanupRow) (deleteOk : Bool)
    (msg : String) (now : Int) : DbState :=
  if deleteOk then markCleanupSuccess db item now
  else markCleanupFailure db item.mediaId msg

/-! Lifecycle clock. -/

/-- Open/close buffer of 13 hours in milliseconds, as in toEndOfDayIso. -/
def BUFFER_MS : Int := 13 * 60 * 60 * 1000

/-- Milliseconds from a date's 00:00 to its 23:59:59.999. -/
def END_OF_DAY_MS : Int := 86399999

/-- Modelled from the spec: the Lifecycle Clock derivation (the shared
status-from-dates function used by the event-status sync cron) is not under
src; section 4.1 gives the contract: draft while now < startDate@00:00 minus
the 13-hour buffer, closed once now > endDate@23:59:59.999 plus the 13-hour
buffer, active otherwise. Dates are the ms timestamps of the date at 00:00
UTC. -/
def derivedLifecycleStatus (eventDateMs endDateMs now : Int) : EventStatus :=
  if now < eventDateMs - BUFFER_MS then EventStatus.draft
  else if now > endDateMs + END_OF_DAY_MS + BUFFER_MS then EventStatus.closed
  else EventStatus.active

/-- Translation of lookupEvent's gate: the event found by slug must have
stored status 'active', otherwise EVENT_CLOSED is thrown. -/
def lookupEvent (db : DbState) (slug : String) : Except ErrCode EventRow :=
  match getEventBySlug db slug with
  | none => Except.error ErrCode.EVENT_NOT_FOUND
  | some e =>
    if e.status = EventStatus.active then Except.ok e
    else Except.error ErrCode.EVENT_CLOSED

/-- An event row with changed calendar dates and everything else equal. -/
def withDates (e : EventRow) (d1 d2 : Int) : EventRow :=
  { e with eventDate := d1, endDate := d2 }

/-! Concrete fixtures used by counterexamples and witnesses. -/

/-- Fixture: an active event with ceilings 10 guests / 1 upload per guest. -/
def event1 : EventRow :=
  { id := "e1", slug := "party", status := EventStatus.active, maxGuests := 10,
    maxUploadsPerGuest := 1, compressionRaw := false, pinHash := none,
    eventDate := 0, endDate := 0, expiresAt := some 0 }

/-- Fixture: an active session in event1. -/
def session1 : SessionRow :=
  { id := "s1", eventId := "e1", tokenHash := hashValue "tok", displayName := some "Al",
    isActive := true, createdAt := 0, lastActiveAt := 0 }

/-- Fixture: a hidden media row owned by session1. -/
def hiddenMedia1 : MediaRow :=
  { id := "m1", eventId := "e1", sessionId := "s1", status := MediaStatus.hidden,
    storagePath := some "e1/m1.jpg", thumbPath := some "e1/m1.jpg",
    mimeType := "image/jpeg", sizeBytes := 100, uploaderName := some "Al", tags := [],
    createdAt := 0, uploadedAt := some 0, storageDeletedAt := none,
    storageDeleteAttempts := 0, storageLastDeleteError := none }

/-- Fixture state: event1 with session1 whose only media is hiddenMedia1. -/
def dbHidden : DbState :=
  { events := [event1], sessions := [session1], media := [hiddenMedia1],
    organizers := [], uploaderFacets := [], tagFacets := [] }

/-- Fixture: a createUpload request for one more jpeg. -/
def upReq1 : UploadReq :=
  { fileType := "image/jpeg", fileSize := 1000, tags := [], newMediaId := "m2", now := 5 }

/-! C2. The claim says expired media do not count toward the per-participant
upload ceiling (true) and hidden media still count (false in the source: the
quota predicate is status IN ('pending', 'uploaded'), which excludes hidden).
-/

/-- C2 counterexample: a session whose only media row is 'hidden', in an event
with upload ceiling 1. getSessionUploadCount reports 0, and createUpload
admits a new reservation; under the claim the hidden row must count, i.e. the
count would be 1 and the reservation would be rejected. -/
theorem c2_hidden_counts_counterexample :
    dbHidden.media = [hiddenMedia1] ∧
    hiddenMedia1.status = MediaStatus.hidden ∧
    hiddenMedia1.sessionId = session1.id ∧
    event1.maxUploadsPerGuest = 1 ∧
    getSessionUploadCount dbHidden session1.id = 0 ∧
    (createUpload dbHidden "tok" upReq1).2 = Except.ok ("m2", 0) := by
  decide

/-- C2 (amended): in the per-participant capacity count used by createUpload
and reported by getSessionUploadCount, only rows with status 'pending' or
'uploaded' count; a row in status 'expired' does not count, and a row in
status 'hidden' does not count either. -/
theorem c2_quota_statuses (db : DbState) (sid : String) (r : MediaRow)
    (hsid : r.sessionId = sid) :
    ((r.status = MediaStatus.expired ∨ r.status = MediaStatus.hidden ∨
        r.status = MediaStatus.failed) →
      getSessionUploadCount { db with media := db.media ++ [r] } sid =
        getSessionUploadCount db sid) ∧
    ((r.status = MediaStatus.pending ∨ r.status = MediaStatus.uploaded) →
      getSessionUploadCount { db with media := db.media ++ [r] } sid =
        getSessionUploadCount db sid + 1) := by
  constructor
  · intro hst
    simp only [getSessionUploadCount, List.filter_append, List.length_append]
    rcases hst with h | h | h <;>
      simp [countsTowardQuota, h, hsid]
  · intro hst
    simp only [getSessionUploadCount, List.filter_append, List.length_append]
    rcases hst with h | h <;>
      simp [countsTowardQuota, h, hsid]

/-- C2 witness: the amended theorem applied to the hidden fixture row. -/
theorem c2_quota_statuses_witness :
    getSessionUploadCount { dbHidden with media := dbHidden.media ++ [hiddenMedia1] }
        session1.id =
      getSessionUploadCount dbHidden session1.id :=
  (c2_quota_statuses dbHidden session1.id hiddenMedia1 rfl).1 (Or.inr (Or.inl rfl))

/-! C5. The spec requires a background orphan reaper flipping stale 'pending'
rows (tens of minutes) to 'expired'. The source has no such job: the only
media background job is the retention cleanup, whose candidate query requires
the event to be closed/archived/purged and 30 days past expiry. The repo's
own guest-flow document promises a 30-minute cleanup, so this is a code bug.
-/

/-- Fixture: a pending media row owned by session1, created at time 0. -/
def pendingMedia1 : MediaRow :=
  { id := "m5", eventId := "e1", sessionId := "s1", status := MediaStatus.pending,
    storagePath := some "e1/m5.jpg", thumbPath := some "e1/m5.jpg",
    mimeType := "image/jpeg", sizeBytes := 1000, uploaderName := none, tags := [],
    createdAt := 0, uploadedAt := none, storageDeletedAt := none,
    storageDeleteAttempts := 0, storageLastDeleteError := none }

/-- Fixture state: event1 (upload ceiling 1) with one stale pending row. -/
def dbStale : DbState :=
  { events := [event1], sessions := [session1], media := [pendingMedia1],
    organizers := [], uploaderFacets := [], tagFacets := [] }

/-- C5 failing input, evaluated on the code: with upload ceiling 1 and one
pending reservation 40 minutes old, the retention job's candidate predicate
(the only background job touching media) rejects the row both while the event
is active and after it closes but is inside the 30-day retention window, so no
job releases the slot and a new reservation still fails with
UPLOAD_LIMIT_REACHED, where the claim promises it succeeds after the orphan
timeout. -/
theorem c5_no_orphan_reaper :
    pendingMedia1.createdAt = 0 ∧
    isCleanupCandidate event1 pendingMedia1 (40 * minuteMs) = false ∧
    isCleanupCandidate { event1 with status := EventStatus.closed } pendingMedia1
      (40 * minuteMs) = false ∧
    (createUpload dbStale "tok"
        { fileType := "image/jpeg", fileSize := 1000, tags := [], newMediaId := "m6",
          now := 40 * minuteMs }).2 =
      Except.error ErrCode.UPLOAD_LIMIT_REACHED := by
  decide

/-! C6. The gating checks use the stored status column, not a status
re-derived from the event's dates. -/

/-- Fixture: an event whose stored status column says 'active' while its dates
lie far in the past (both dates at epoch 0). -/
def staleEvent : EventRow :=
  { id := "e6", slug := "stale", status := EventStatus.active, maxGuests := 5,
    maxUploadsPerGuest := 5, compressionRaw := false, pinHash := none,
    eventDate := 0, endDate := 0, expiresAt := some 86399999 }

/-- Fixture state containing only staleEvent. -/
def dbStaleEvent : DbState :=
  { events := [staleEvent], sessions := [], media := [], organizers := [],
    uploaderFacets := [], tagFacets := [] }

/-- C6 counterexample: at now = 10^12 ms the dates of staleEvent imply
'closed' (well past end + 13h), yet joinEvent admits the caller because the
stored status column still says 'active' — the stored column, not the dates,
decides admission. -/
theorem c6_stored_status_counterexample :
    derivedLifecycleStatus staleEvent.eventDate staleEvent.endDate 1000000000000 =
      EventStatus.closed ∧
    staleEvent.status = EventStatus.active ∧
    (joinEvent dbStaleEvent "stale" none
        { newSessionId := "s9", tokenHash := "th9", displayName := none,
          now := 1000000000000 }).2 =
      Except.ok
        { id := "s9", eventId := "e6", tokenHash := "th9", displayName := none,
          isActive := true, createdAt := 1000000000000, lastActiveAt := 1000000000000 } := by
  decide

/-- C6 (amended): every gating check for joining and uploading reads only the
stored status column — it passes exactly when that column is 'active', and
changing the event's dates never changes any gate's outcome; in particular
joinEvent returns EVENT_CLOSED exactly when the stored status is not 'active',
regardless of the dates and the request time. -/
theorem c6_gates_use_stored_status (e : EventRow) (d1 d2 : Int) (db : DbState)
    (slug : String) (pin : Option String) (req : JoinReq)
    (hfind : getEventBySlug db slug = some e) :
    eventOpenForJoins (withDates e d1 d2) = eventOpenForJoins e ∧
    eventAcceptingUploads (withDates e d1 d2) = eventAcceptingUploads e ∧
    (eventOpenForJoins e = true ↔ e.status = EventStatus.active) ∧
    (eventAcceptingUploads e = true ↔ e.status = EventStatus.active) ∧
    (lookupEvent db slug = Except.ok e ↔ e.status = EventStatus.active) ∧
    (e.status ≠ EventStatus.active →
      (joinEvent db slug pin req).2 = Except.error ErrCode.EVENT_CLOSED) ∧
    (e.status = EventStatus.active →
      (joinEvent db slug pin req).2 ≠ Except.error ErrCode.EVENT_CLOSED) := by
  refine ⟨rfl, rfl, by simp [eventOpenForJoins], by simp [eventAcceptingUploads], ?_, ?_, ?_⟩
  · constructor
    · intro h
      simp only [lookupEvent, hfind] at h
      by_contra hne
      rw [if_neg hne] at h
      exact Except.noConfusion h
    · intro h
      simp [lookupEvent, hfind, h]
  · intro hne
    simp only [joinEvent, hfind]
    have : eventOpenForJoins e = false := by
      simp [eventOpenForJoins, hne]
    simp [this]
  · intro hact
    have hopen : eventOpenForJoins e = true := by simp [eventOpenForJoins, hact]
    simp only [joinEvent, hfind, hopen]
    cases hph : e.pinHash with
    | none =>
      cases hj : joinInsert db e req with
      | mk db1 r =>
        cases r <;> simp
    | some h =>
      cases pin with
      | none => simp
      | some p =>
        by_cases hp : hashValue p ≠ h
        · simp [hp]
        · cases hj : joinInsert db e req with
          | mk db1 r =>
            cases r <;> simp [hp]

/-- C6 witness: the amended theorem applied to staleEvent in dbStaleEvent. -/
theorem c6_gates_use_stored_status_witness :
    (joinEvent dbStaleEvent "stale" none
        { newSessionId := "s9", tokenHash := "th9", displayName := none,
          now := 1000000000000 }).2 ≠ Except.error ErrCode.EVENT_CLOSED :=
  (c6_gates_use_stored_status staleEvent 0 0 dbStaleEvent "stale" none
      { newSessionId := "s9", tokenHash := "th9", displayName := none,
        now := 1000000000000 } (by decide)).2.2.2.2.2.2 rfl

/-! C8. Facet rebuild: fixed point and ground-truth correction hold, but the
claimed grouping normalization (trimmed AND lowercased) only matches the tag
family; uploader names are trimmed and grouped case-sensitively. -/

/-- Modelled from the spec (refinement comparison): uploader-facet groups as
the claim describes them, by event and trimmed, lowercased uploader value. -/
def claimUploaderCountsLowercased (media : List MediaRow) (sessions : List SessionRow) :
    List (String × String × Nat) :=
  groupCount ((media.filter (fun m => facetTracked m.status)).filterMap
    (fun m => (rebuildUploaderKey sessions m).map (fun n => (m.eventId, toLowerStr n))))

/-- Fixture: an uploaded media row with uploader name Alice (capitalized). -/
def mediaAlice : MediaRow :=
  { id := "mA", eventId := "e1", sessionId := "s1", status := MediaStatus.uploaded,
    storagePath := some "e1/mA.jpg", thumbPath := none, mimeType := "image/jpeg",
    sizeBytes := 10, uploaderName := some "Alice", tags := [], createdAt := 0,
    uploadedAt := some 1, storageDeletedAt := none, storageDeleteAttempts := 0,
    storageLastDeleteError := none }

/-- Fixture: an uploaded media row with uploader name alice (lowercase). -/
def mediaAliceLower : MediaRow :=
  { id := "mB", eventId := "e1", sessionId := "s1", status := MediaStatus.uploaded,
    storagePath := some "e1/mB.jpg", thumbPath := none, mimeType := "image/jpeg",
    sizeBytes := 10, uploaderName := some "alice", tags := [], createdAt := 0,
    uploadedAt := some 1, storageDeletedAt := none, storageDeleteAttempts := 0,
    storageLastDeleteError := none }

/-- C8 counterexample: rebuild groups uploader names case-sensitively — on two
uploaded rows named Alice and alice it produces two counters of 1, where the
claim's trimmed-and-lowercased grouping would produce one counter of 2. -/
theorem c8_rebuild_grouping_counterexample :
    rebuildUploaderCounts [mediaAlice, mediaAliceLower] [] =
      [("e1", "Alice", 1), ("e1", "alice", 1)] ∧
    claimUploaderCountsLowercased [mediaAlice, mediaAliceLower] [] =
      [("e1", "alice", 2)] ∧
    rebuildUploaderCounts [mediaAlice, mediaAliceLower] [] ≠
      claimUploaderCountsLowercased [mediaAlice, mediaAliceLower] [] := by
  decide

/-- Projection of a facet row to its counter content (event, value, count). -/
def facetProj (r : FacetRow) : String × String × Nat :=
  (r.eventId, r.value, r.mediaCount)

/-- Helper: projecting the rows rebuild inserts recovers the computed groups. -/
theorem facetProj_map_mk (l : List (String × String × Nat)) (t : Int) :
    (l.map (fun p =>
      ({ eventId := p.1, value := p.2.1, mediaCount := p.2.2, updatedAt := t } : FacetRow))).map
        facetProj = l := by
  induction l with
  | nil => rfl
  | cons p rest ih => simp [facetProj, ih]

/-- Helper: the counter content rebuild persists equals the groups computed
from the media and session rows. -/
theorem rebuild_proj (db : DbState) (t : Int) :
    (rebuildGalleryFacets db t).uploaderFacets.map facetProj =
      rebuildUploaderCounts db.media db.sessions ∧
    (rebuildGalleryFacets db t).tagFacets.map facetProj = rebuildTagCounts db.media :=
  ⟨facetProj_map_mk (rebuildUploaderCounts db.media db.sessions) t,
    facetProj_map_mk (rebuildTagCounts db.media) t⟩

/-- C8 (amended): rebuild truncates both facet families and recomputes every
counter from media rows with status in the set containing uploaded and hidden,
grouped by event and by normalized value — tags trimmed and lowercased,
uploader names trimmed but case-sensitive. It is a fixed point (a second run
at any later time yields the same counters) and the ground-truth correction
(its output is the same regardless of how the facet tables were corrupted
beforehand, and it never touches media or session rows). -/
theorem c8_rebuild_fixed_point (db : DbState) (t1 t2 : Int)
    (u1 u2 tg1 tg2 : List FacetRow) :
    ((rebuildGalleryFacets (rebuildGalleryFacets db t1) t2).uploaderFacets.map facetProj =
      (rebuildGalleryFacets db t1).uploaderFacets.map facetProj) ∧
    ((rebuildGalleryFacets (rebuildGalleryFacets db t1) t2).tagFacets.map facetProj =
      (rebuildGalleryFacets db t1).tagFacets.map facetProj) ∧
    (rebuildGalleryFacets { db with uploaderFacets := u1, tagFacets := tg1 } t1 =
      rebuildGalleryFacets { db with uploaderFacets := u2, tagFacets := tg2 } t1) ∧
    ((rebuildGalleryFacets db t1).media = db.media ∧
      (rebuildGalleryFacets db t1).sessions = db.sessions) ∧
    ((rebuildGalleryFacets db t1).uploaderFacets.map facetProj =
      rebuildUploaderCounts db.media db.sessions) ∧
    ((rebuildGalleryFacets db t1).tagFacets.map facetProj =
      rebuildTagCounts db.media) := by
  refine ⟨?_, ?_, rfl, ⟨rfl, rfl⟩, (rebuild_proj db t1).1, (rebuild_proj db t1).2⟩
  · rw [(rebuild_proj (rebuildGalleryFacets db t1) t2).1, (rebuild_proj db t1).1]
    exact rfl
  · rw [(rebuild_proj (rebuildGalleryFacets db t1) t2).2, (rebuild_proj db t1).2]
    exact rfl

/-! C9. Every facet-ledger operation keeps all persisted counters at 1 or
more: no negative count and no count-zero row ever persists. -/

/-- Invariant: every persisted facet counter row has count at least 1. -/
def facetsNonZero (db : DbState) : Prop :=
  (∀ r ∈ db.uploaderFacets, 1 ≤ r.mediaCount) ∧ (∀ r ∈ db.tagFacets, 1 ≤ r.mediaCount)

/-- Helper: upsert preserves positivity of every counter. -/
theorem upsertFacet_pos (rows : List FacetRow) (eid val : String) (now : Int)
    (h : ∀ r ∈ rows, 1 ≤ r.mediaCount) :
    ∀ r ∈ upsertFacet rows eid val now, 1 ≤ r.mediaCount := by
  intro r hr
  unfold upsertFacet at hr
  split at hr
  · rcases List.mem_map.mp hr with ⟨r0, hr0, rfl⟩
    by_cases hp : r0.eventId = eid ∧ r0.value = val
    · rw [if_pos hp]
      exact Nat.le_add_left 1 r0.mediaCount
    · rw [if_neg hp]
      exact h r0 hr0
  · rcases List.mem_append.mp hr with h1 | h1
    · exact h r h1
    · rcases List.mem_singleton.mp h1 with rfl
      exact Nat.le_refl 1

/-- Helper: guarded decrement plus delete-at-zero preserves positivity. -/
theorem decrementFacet_pos (rows : List FacetRow) (eid val : String) (now : Int)
    (h : ∀ r ∈ rows, 1 ≤ r.mediaCount) :
    ∀ r ∈ decrementFacet rows eid val now, 1 ≤ r.mediaCount := by
  intro r hr
  unfold decrementFacet at hr
  rcases List.mem_filter.mp hr with ⟨hmem, hflt⟩
  rcases List.mem_map.mp hmem with ⟨r0, hr0, rfl⟩
  by_cases hp : r0.eventId = eid ∧ r0.value = val
  · rw [if_pos hp] at hflt ⊢
    simp only [decide_not, Bool.not_eq_true', decide_eq_false_iff_not] at hflt
    have hc : ¬ ({ r0 with mediaCount := r0.mediaCount - 1, updatedAt := now } : FacetRow).mediaCount = 0 := by
      intro hzero
      exact hflt ⟨hp.1, hp.2, hzero⟩
    omega
  · rw [if_neg hp]
    exact h r0 hr0

/-- Helper: folding upsert over a tag list preserves positivity. -/
theorem foldl_upsert_pos (tags : List String) (eid : String) (now : Int) :
    ∀ rows, (∀ r ∈ rows, 1 ≤ r.mediaCount) →
      ∀ r ∈ tags.foldl (fun rows t => upsertFacet rows eid t now) rows, 1 ≤ r.mediaCount := by
  induction tags with
  | nil => intro rows h r hr; exact h r hr
  | cons t rest ih =>
    intro rows h r hr
    exact ih (upsertFacet rows eid t now) (upsertFacet_pos rows eid t now h) r hr

/-- Helper: folding the guarded decrement over a tag list preserves
positivity. -/
theorem foldl_decrement_pos (tags : List String) (eid : String) (now : Int) :
    ∀ rows, (∀ r ∈ rows, 1 ≤ r.mediaCount) →
      ∀ r ∈ tags.foldl (fun rows t => decrementFacet rows eid t now) rows, 1 ≤ r.mediaCount := by
  induction tags with
  | nil => intro rows h r hr; exact h r hr
  | cons t rest ih =>
    intro rows h r hr
    exact ih (decrementFacet rows eid t now) (decrementFacet_pos rows eid t now h) r hr

/-- Helper: one GROUP BY counting step keeps every group count positive. -/
theorem bumpKey_pos : ∀ (acc : List (String × String × Nat)) (k : String × String),
    (∀ p ∈ acc, 1 ≤ p.2.2) → ∀ p ∈ bumpKey acc k, 1 ≤ p.2.2 := by
  intro acc
  induction acc with
  | nil =>
    intro k _ p hp
    simp only [bumpKey, List.mem_singleton] at hp
    subst hp
    exact Nat.le_refl 1
  | cons q rest ih =>
    rcases q with ⟨e, v, c⟩
    intro k h p hp
    simp only [bumpKey] at hp
    split at hp
    · rcases List.mem_cons.mp hp with rfl | hmem
      · exact Nat.le_add_left 1 c
      · exact h p (List.mem_cons_of_mem _ hmem)
    · rcases List.mem_cons.mp hp with rfl | hmem
      · exact h (e, v, c) (List.mem_cons_self _ _)
      · exact ih k (fun q hq => h q (List.mem_cons_of_mem _ hq)) p hmem

/-- Helper: all counts produced by GROUP BY counting are positive. -/
theorem groupCount_pos (keys : List (String × String)) :
    ∀ p ∈ groupCount keys, 1 ≤ p.2.2 := by
  unfold groupCount
  have main : ∀ (ks : List (String × String)) (acc : List (String × String × Nat)),
      (∀ p ∈ acc, 1 ≤ p.2.2) → ∀ p ∈ ks.foldl bumpKey acc, 1 ≤ p.2.2 := by
    intro ks
    induction ks with
    | nil => intro acc h; exact h
    | cons k rest ih =>
      intro acc h
      exact ih (bumpKey acc k) (bumpKey_pos acc k h)
  exact main keys [] (by intro p hp; cases hp)

/-- Helper: the uploader facets written by addMediaToGalleryFacets. -/
theorem addMedia_uploaderFacets (db : DbState) (eid : String) (name : Option String)
    (tags : List String) (now : Int) :
    (addMediaToGalleryFacets db eid name tags now).uploaderFacets =
      (match normalizeUploaderName name with
        | some n => upsertFacet db.uploaderFacets eid n now
        | none => db.uploaderFacets) := by
  unfold addMediaToGalleryFacets
  cases normalizeUploaderName name <;> rfl

/-- Helper: the tag facets written by addMediaToGalleryFacets. -/
theorem addMedia_tagFacets (db : DbState) (eid : String) (name : Option String)
    (tags : List String) (now : Int) :
    (addMediaToGalleryFacets db eid name tags now).tagFacets =
      (normalizeTagsFacet tags).foldl (fun rows t => upsertFacet rows eid t now) db.tagFacets := by
  unfold addMediaToGalleryFacets
  cases normalizeUploaderName name <;> rfl

/-- Helper: the uploader facets written by removeMediaFromGalleryFacets. -/
theorem removeMedia_uploaderFacets (db : DbState) (eid : String) (name : Option String)
    (tags : List String) (now : Int) :
    (removeMediaFromGalleryFacets db eid name tags now).uploaderFacets =
      (match normalizeUploaderName name with
        | some n => decrementFacet db.uploaderFacets eid n now
        | none => db.uploaderFacets) := by
  unfold removeMediaFromGalleryFacets
  cases normalizeUploaderName name <;> rfl

/-- Helper: the tag facets written by removeMediaFromGalleryFacets. -/
theorem removeMedia_tagFacets (db : DbState) (eid : String) (name : Option String)
    (tags : List String) (now : Int) :
    (removeMediaFromGalleryFacets db eid name tags now).tagFacets =
      (normalizeTagsFacet tags).foldl (fun rows t => decrementFacet rows eid t now) db.tagFacets := by
  unfold removeMediaFromGalleryFacets
  cases normalizeUploaderName name <;> rfl

/-- Helper: facet writes leave media, sessions and events untouched. -/
theorem facetOps_preserve_rest (db : DbState) (eid : String) (name : Option String)
    (tags : List String) (now : Int) :
    (addMediaToGalleryFacets db eid name tags now).media = db.media ∧
    (addMediaToGalleryFacets db eid name tags now).sessions = db.sessions ∧
    (addMediaToGalleryFacets db eid name tags now).events = db.events ∧
    (removeMediaFromGalleryFacets db eid name tags now).media = db.media ∧
    (removeMediaFromGalleryFacets db eid name tags now).sessions = db.sessions ∧
    (removeMediaFromGalleryFacets db eid name tags now).events = db.events := by
  unfold addMediaToGalleryFacets removeMediaFromGalleryFacets
  cases normalizeUploaderName name <;>
    exact ⟨rfl, rfl, rfl, rfl, rfl, rfl⟩

/-- C9: increment (create-or-add-one), decrement (guarded floor at zero with
immediate delete of zero rows) and rebuild (which inserts only positive group
counts) each preserve the invariant that every persisted facet counter row has
count at least 1 — no negative count and no count-zero row ever persists. -/
theorem c9_facet_counters_positive (db : DbState) (eid : String) (name : Option String)
    (tags : List String) (now t : Int) (h : facetsNonZero db) :
    facetsNonZero (addMediaToGalleryFacets db eid name tags now) ∧
    facetsNonZero (removeMediaFromGalleryFacets db eid name tags now) ∧
    facetsNonZero (rebuildGalleryFacets db t) := by
  obtain ⟨hu, ht⟩ := h
  refine ⟨⟨?_, ?_⟩, ⟨?_, ?_⟩, ⟨?_, ?_⟩⟩
  · rw [addMedia_uploaderFacets]
    cases hn : normalizeUploaderName name
    · exact hu
    · exact upsertFacet_pos db.uploaderFacets eid _ now hu
  · rw [addMedia_tagFacets]
    exact foldl_upsert_pos (normalizeTagsFacet tags) eid now db.tagFacets ht
  · rw [removeMedia_uploaderFacets]
    cases hn : normalizeUploaderName name
    · exact hu
    · exact decrementFacet_pos db.uploaderFacets eid _ now hu
  · rw [removeMedia_tagFacets]
    exact foldl_decrement_pos (normalizeTagsFacet tags) eid now db.tagFacets ht
  · intro r hr
    rcases List.mem_map.mp hr with ⟨p, hp, rfl⟩
    exact groupCount_pos _ p hp
  · intro r hr
    rcases List.mem_map.mp hr with ⟨p, hp, rfl⟩
    exact groupCount_pos _ p hp

/-- C9 witness: the invariant theorem applied to a concrete one-row ledger. -/
theorem c9_facet_counters_positive_witness :
    facetsNonZero (addMediaToGalleryFacets
      { events := [], sessions := [], media := [], organizers := [],
        uploaderFacets := [{ eventId := "e1", value := "Al", mediaCount := 1, updatedAt := 0 }],
        tagFacets := [] } "e1" (some "Al") ["dance-floor"] 7) :=
  (c9_facet_counters_positive
    { events := [], sessions := [], media := [], organizers := [],
      uploaderFacets := [{ eventId := "e1", value := "Al", mediaCount := 1, updatedAt := 0 }],
      tagFacets := [] } "e1" (some "Al") ["dance-floor"] 7 7
    (by constructor <;> simp)).1

/-! C4. Retention sweep is atomic per item: a failed blob delete changes only
the bookkeeping fields of the row (status and ledger untouched), a successful
delete flips the row to expired and decrements the ledger in one transaction
(one state transition in this embedding). -/

/-- C4: on blob-delete failure the row keeps its status and the Facet Ledger
is unchanged — only the delete-attempt counter and last-error field of the
named row change; on success the row flips to 'expired' with a deletion stamp
and, exactly when the selected status was facet-tracked, the ledger decrement
for its uploader and tags is applied to the original facets in the same
transition — the two effects are observed together or not at all. -/
theorem c4_retention_atomic (db : DbState) (item : MediaCleanupRow)
    (deleteOk : Bool) (msg : String) (now : Int) :
    (deleteOk = false →
      (cleanupItem db item deleteOk msg now).uploaderFacets = db.uploaderFacets ∧
      (cleanupItem db item deleteOk msg now).tagFacets = db.tagFacets ∧
      (cleanupItem db item deleteOk msg now).media.map (fun m => (m.id, m.status)) =
        db.media.map (fun m => (m.id, m.status)) ∧
      (cleanupItem db item deleteOk msg now).media =
        db.media.map (fun m =>
          if m.id = item.mediaId then
            { m with
              storageDeleteAttempts := m.storageDeleteAttempts + 1
              storageLastDeleteError := some (takeStr msg 2000) }
          else m)) ∧
    (deleteOk = true →
      (cleanupItem db item deleteOk msg now).media =
        db.media.map (fun m =>
          if m.id = item.mediaId then
            { m with
              status := MediaStatus.expired
              storageDeletedAt := some now
              storageLastDeleteError := none }
          else m) ∧
      (cleanupItem db item deleteOk msg now).uploaderFacets =
        (if facetTracked item.status then
          (removeMediaFromGalleryFacets db item.eventId item.uploaderName item.tags
            now).uploaderFacets
         else db.uploaderFacets) ∧
      (cleanupItem db item deleteOk msg now).tagFacets =
        (if facetTracked item.status then
          (removeMediaFromGalleryFacets db item.eventId item.uploaderName item.tags
            now).tagFacets
         else db.tagFacets)) := by
  constructor
  · intro hfail
    subst hfail
    refine ⟨rfl, rfl, ?_, rfl⟩
    simp only [cleanupItem, Bool.false_eq_true, if_false, markCleanupFailure, List.map_map]
    apply List.map_congr_left
    intro m _
    by_cases hid : m.id = item.mediaId <;> simp [hid]
  · intro hok
    subst hok
    simp only [cleanupItem, if_true, markCleanupSuccess]
    by_cases htr : facetTracked item.status
    · rw [if_pos htr, if_pos htr, if_pos htr]
      refine ⟨?_, ?_, ?_⟩
      · rw [(facetOps_preserve_rest _ item.eventId item.uploaderName item.tags now).2.2.2.1]
      · rw [removeMedia_uploaderFacets, removeMedia_uploaderFacets]
      · rw [removeMedia_tagFacets, removeMedia_tagFacets]
    · rw [if_neg htr, if_neg htr, if_neg htr]
      exact ⟨rfl, rfl, rfl⟩

/-- C4 witness: the failure branch evaluated at a concrete item. -/
theorem c4_retention_atomic_witness :
    (cleanupItem dbHidden
        { mediaId := "m1", eventId := "e1", storagePath := some "e1/m1.jpg",
          thumbPath := some "e1/m1.jpg", status := MediaStatus.hidden,
          uploaderName := some "Al", tags := [] } false "boom" 9).uploaderFacets =
      dbHidden.uploaderFacets :=
  (c4_retention_atomic dbHidden
      { mediaId := "m1", eventId := "e1", storagePath := some "e1/m1.jpg",
        thumbPath := some "e1/m1.jpg", status := MediaStatus.hidden,
        uploaderName := some "Al", tags := [] } false "boom" 9).1 rfl |>.1

/-! C3. Finalize succeeds at most once per media row. -/

/-- Helper: whatever the outcome, the state component of
resolveSessionFromToken is exactly the touch of last_active_at on every
session matching the token hash; events, media and facets are untouched. -/
theorem resolve_fst (db : DbState) (token : String) (now : Int) :
    (resolveSessionFromToken db token now).1 = touchSessions db (hashValue token) now :=
  rfl

/-- C3: for every media row whose status is not 'pending', finalize returns
MEDIA_STATE_CONFLICT and leaves the media table and the Facet Ledger (both
families) unchanged; since a successful finalize leaves the row 'uploaded',
a second finalize on the same row can never increment the ledger again. -/
theorem c3_finalize_idempotent (db : DbState) (token mediaId : String) (now : Int)
    (storageHas : String → Bool) (s : SessionRow) (e : EventRow) (m : MediaRow)
    (hres : (resolveSessionFromToken db token now).2 = Except.ok (s, e))
    (hfind : db.media.find? (fun m2 => m2.id = mediaId ∧ m2.sessionId = s.id) = some m)
    (hstat : m.status ≠ MediaStatus.pending) :
    (completeUpload db token mediaId now storageHas).2 =
      Except.error ErrCode.MEDIA_STATE_CONFLICT ∧
    (completeUpload db token mediaId now storageHas).1.media = db.media ∧
    (completeUpload db token mediaId now storageHas).1.uploaderFacets = db.uploaderFacets ∧
    (completeUpload db token mediaId now storageHas).1.tagFacets = db.tagFacets := by
  have hfst := resolve_fst db token now
  rcases hp : resolveSessionFromToken db token now with ⟨db1, r⟩
  rw [hp] at hres hfst
  simp only at hres hfst
  subst hres
  subst hfst
  simp only [completeUpload, hp,
    show (touchSessions db (hashValue token) now).media = db.media from rfl, hfind]
  rw [if_pos hstat]
  exact ⟨rfl, rfl, rfl, rfl⟩

/-- Fixture: a pending media row for session1 awaiting finalize. -/
def pendingUpload : MediaRow :=
  { id := "mp", eventId := "e1", sessionId := "s1", status := MediaStatus.pending,
    storagePath := some "e1/mp.jpg", thumbPath := some "e1/mp.jpg",
    mimeType := "image/jpeg", sizeBytes := 1000, uploaderName := some "Al", tags := [],
    createdAt := 0, uploadedAt := none, storageDeletedAt := none,
    storageDeleteAttempts := 0, storageLastDeleteError := none }

/-- Fixture state: event1, session1 and one pending upload. -/
def dbPend : DbState :=
  { events := [event1], sessions := [session1], media := [pendingUpload],
    organizers := [], uploaderFacets := [], tagFacets := [] }

/-- Fixture: session1 as the second finalize call sees it (touched at t=2). -/
def session1At2 : SessionRow :=
  { id := "s1", eventId := "e1", tokenHash := hashValue "tok", displayName := some "Al",
    isActive := true, createdAt := 0, lastActiveAt := 2 }

/-- Fixture: pendingUpload after the first successful finalize at t=1. -/
def uploadedUpload : MediaRow :=
  { id := "mp", eventId := "e1", sessionId := "s1", status := MediaStatus.uploaded,
    storagePath := some "e1/mp.jpg", thumbPath := some "e1/mp.jpg",
    mimeType := "image/jpeg", sizeBytes := 1000, uploaderName := some "Al", tags := [],
    createdAt := 0, uploadedAt := some 1, storageDeletedAt := none,
    storageDeleteAttempts := 0, storageLastDeleteError := none }

/-- C3 witness: after a first successful finalize of the pending fixture row,
the theorem applies to the resulting state — the second finalize on the same
row returns MEDIA_STATE_CONFLICT (and by the theorem's remaining conjuncts the
ledger is not incremented again). -/
theorem c3_finalize_idempotent_witness :
    (completeUpload (completeUpload dbPend "tok" "mp" 1 (fun _ => true)).1
        "tok" "mp" 2 (fun _ => true)).2 =
      Except.error ErrCode.MEDIA_STATE_CONFLICT :=
  (c3_finalize_idempotent (completeUpload dbPend "tok" "mp" 1 (fun _ => true)).1
      "tok" "mp" 2 (fun _ => true) session1At2 event1 uploadedUpload
      (by decide) (by decide) (by decide)).1

/-! C10. Operations on a deactivated session fail with SESSION_INACTIVE and
change nothing — except that the token lookup has already refreshed
last_active_at, because the touched CTE runs before the active check. -/

/-- C10: when the token resolves to a session whose is_active is false, every
token-authenticated guest operation (get session, patch session, create
upload, complete upload, list uploads) returns SESSION_INACTIVE and leaves
events, media and both facet families unchanged, while the final state is
exactly the touch of last_active_at on the sessions matching the token —
i.e. the timestamp is refreshed even though the operation is rejected. -/
theorem c10_inactive_session_touches (db : DbState) (token : String) (now : Int)
    (hres : (resolveSessionFromToken db token now).2 =
      Except.error ErrCode.SESSION_INACTIVE) :
    (touchSessions db (hashValue token) now).media = db.media ∧
    (touchSessions db (hashValue token) now).events = db.events ∧
    (touchSessions db (hashValue token) now).uploaderFacets = db.uploaderFacets ∧
    (touchSessions db (hashValue token) now).tagFacets = db.tagFacets ∧
    getMySession db token now =
      (touchSessions db (hashValue token) now, Except.error ErrCode.SESSION_INACTIVE) ∧
    getMyUploads db token now =
      (touchSessions db (hashValue token) now, Except.error ErrCode.SESSION_INACTIVE) ∧
    (∀ nn dn, ensureDisplayName nn = Except.ok dn →
      patchMySession db token true nn now =
        (touchSessions db (hashValue token) now, Except.error ErrCode.SESSION_INACTIVE)) ∧
    (∀ req : UploadReq, req.now = now → ¬ toLowerStr (trimStr req.fileType) = "" →
      1 ≤ req.fileSize → (∀ tg, ensureTags req.tags = Except.ok tg →
      createUpload db token req =
        (touchSessions db (hashValue token) now, Except.error ErrCode.SESSION_INACTIVE))) ∧
    (∀ mid storageHas, completeUpload db token mid now storageHas =
      (touchSessions db (hashValue token) now, Except.error ErrCode.SESSION_INACTIVE)) := by
  have hfst := resolve_fst db token now
  rcases hp : resolveSessionFromToken db token now with ⟨db1, r⟩
  rw [hp] at hres hfst
  simp only at hres hfst
  subst hres
  subst hfst
  refine ⟨rfl, rfl, rfl, rfl, ?_, ?_, ?_, ?_, ?_⟩
  · simp only [getMySession, hp]
  · simp only [getMyUploads, hp]
  · intro nn dn hdn
    simp only [patchMySession, hdn, hp]
    simp
  · intro req hnow hft hsz tg htg
    subst hnow
    simp only [createUpload, htg, hp]
    rw [if_neg hft, if_neg (by omega : ¬ req.fileSize < 1)]
  · intro mid storageHas
    simp only [completeUpload, hp]

/-- Fixture: session1 deactivated by the organizer. -/
def session1Inactive : SessionRow :=
  { id := "s1", eventId := "e1", tokenHash := hashValue "tok", displayName := some "Al",
    isActive := false, createdAt := 0, lastActiveAt := 0 }

/-- Fixture state: event1 with the deactivated session. -/
def dbInactive : DbState :=
  { events := [event1], sessions := [session1Inactive], media := [],
    organizers := [], uploaderFacets := [], tagFacets := [] }

/-- C10 witness: the theorem applied to the deactivated fixture session; the
lookup at t=9 rejects the call yet refreshes last_active_at to 9. -/
theorem c10_inactive_session_touches_witness :
    getMySession dbInactive "tok" 9 =
      (touchSessions dbInactive (hashValue "tok") 9,
        Except.error ErrCode.SESSION_INACTIVE) :=
  (c10_inactive_session_touches dbInactive "tok" 9 (by decide)).2.2.2.2.1

/-! C7. The operations do NOT implement the spec's transition DAG: single-item
hide and unhide carry no status precondition. -/

/-- The transition DAG asserted by the specification: pending to uploaded,
uploaded and hidden interchangeable, pending to expired, uploaded or hidden to
expired; nothing else. -/
def specAllowedTransition : MediaStatus → MediaStatus → Bool
  | MediaStatus.pending, MediaStatus.uploaded => true
  | MediaStatus.uploaded, MediaStatus.hidden => true
  | MediaStatus.hidden, MediaStatus.uploaded => true
  | MediaStatus.pending, MediaStatus.expired => true
  | MediaStatus.uploaded, MediaStatus.expired => true
  | MediaStatus.hidden, MediaStatus.expired => true
  | _, _ => false

/-- Fixture: organizer o1 owns event e1. -/
def orgLink : OrganizerRow :=
  { eventId := "e1", organizerId := "o1" }

/-- Fixture state: event1 with one pending media row and an organizer. -/
def dbPendOrg : DbState :=
  { events := [event1], sessions := [session1], media := [pendingUpload],
    organizers := [orgLink], uploaderFacets := [], tagFacets := [] }

/-- C7 counterexample: hideMedia moves a 'pending' row to 'hidden' — a
transition outside the claimed DAG — because its UPDATE has no status guard. -/
theorem c7_dag_counterexample :
    pendingUpload.status = MediaStatus.pending ∧
    specAllowedTransition MediaStatus.pending MediaStatus.hidden = false ∧
    (hideMedia dbPendOrg "o1" "e1" "mp").2 = Except.ok "mp" ∧
    (hideMedia dbPendOrg "o1" "e1" "mp").1.media.map (fun m => m.status) =
      [MediaStatus.hidden] := by
  decide

/-- C7 (amended): the transitions actually performed are: completeUpload flips
only 'pending' rows (to 'uploaded'); single-item hide sets every matched row
to 'hidden' and unhide to 'uploaded' regardless of prior status (so pending,
failed or expired rows can become hidden, and any non-hidden row can become
uploaded); bulk hide guards only status not already 'hidden'; the retention
sweep sets the processed row to 'expired' from any status. -/
theorem c7_transitions (db : DbState) (oid eid mid : String) (mids : List String)
    (item : MediaCleanupRow) (now : Int) :
    ((hideMedia db oid eid mid).1.media.map (fun m => (m.id, m.status)) =
      db.media.map (fun m =>
        if m.id = mid ∧ m.eventId = eid ∧ organizerOwnsEvent db m.eventId oid then
          (m.id, MediaStatus.hidden)
        else (m.id, m.status))) ∧
    ((unhideMedia db oid eid mid).1.media.map (fun m => (m.id, m.status)) =
      db.media.map (fun m =>
        if m.id = mid ∧ m.eventId = eid ∧ organizerOwnsEvent db m.eventId oid then
          (m.id, MediaStatus.uploaded)
        else (m.id, m.status))) ∧
    ((bulkHideMedia db oid eid mids).1.media.map (fun m => (m.id, m.status)) =
      db.media.map (fun m =>
        if m.eventId = eid ∧ m.id ∈ mids ∧ m.status ≠ MediaStatus.hidden ∧
            organizerOwnsEvent db m.eventId oid then
          (m.id, MediaStatus.hidden)
        else (m.id, m.status))) ∧
    ((markCleanupSuccess db item now).media.map (fun m => (m.id, m.status)) =
      db.media.map (fun m =>
        if m.id = item.mediaId then (m.id, MediaStatus.expired) else (m.id, m.status))) ∧
    (∀ token mId t storageHas,
      ((completeUpload db token mId t storageHas).1.media.map (fun m => (m.id, m.status)) =
        db.media.map (fun m => (m.id, m.status))) ∨
      (∃ sid, (completeUpload db token mId t storageHas).1.media.map
          (fun m => (m.id, m.status)) =
        db.media.map (fun m =>
          if m.id = mId ∧ m.sessionId = sid ∧ m.status = MediaStatus.pending then
            (m.id, MediaStatus.uploaded)
          else (m.id, m.status)))) := by
  refine ⟨?_, ?_, ?_, ?_, ?_⟩
  · simp only [hideMedia]
    split
    · simp only [List.map_map]
      apply List.map_congr_left
      intro m _
      by_cases hpm : m.id = mid ∧ m.eventId = eid ∧ organizerOwnsEvent db m.eventId oid
      · obtain ⟨h1, h2, h3⟩ := hpm
        simp [h1, h2, h3, h2 ▸ h3]
      · simp [hpm]
    · rename_i hany
      simp only [List.any_eq_true, not_exists, not_and] at hany
      apply List.map_congr_left
      intro m hm
      have := hany m hm
      rw [if_neg (by simpa using this)]
  · simp only [unhideMedia]
    split
    · simp only [List.map_map]
      apply List.map_congr_left
      intro m _
      by_cases hpm : m.id = mid ∧ m.eventId = eid ∧ organizerOwnsEvent db m.eventId oid
      · obtain ⟨h1, h2, h3⟩ := hpm
        simp [h1, h2, h3, h2 ▸ h3]
      · simp [hpm]
    · rename_i hany
      simp only [List.any_eq_true, not_exists, not_and] at hany
      apply List.map_congr_left
      intro m hm
      have := hany m hm
      rw [if_neg (by simpa using this)]
  · simp only [bulkHideMedia, List.map_map]
    apply List.map_congr_left
    intro m _
    by_cases hpm : m.eventId = eid ∧ m.id ∈ mids ∧ m.status ≠ MediaStatus.hidden ∧
        organizerOwnsEvent db m.eventId oid
    · obtain ⟨h1, h2, h3, h4⟩ := hpm
      simp [h1, h2, h3, h4, h1 ▸ h4]
    · simp [hpm]
  · simp only [markCleanupSuccess]
    rw [show ∀ dbx : DbState,
        (if facetTracked item.status then
          removeMediaFromGalleryFacets dbx item.eventId item.uploaderName item.tags now
         else dbx).media =
          dbx.media from ?_]
    · simp only [List.map_map]
      apply List.map_congr_left
      intro m _
      by_cases hid : m.id = item.mediaId <;> simp [hid]
    · intro dbx
      split
      · exact (facetOps_preserve_rest dbx item.eventId item.uploaderName item.tags now).2.2.2.1
      · rfl
  · intro token mId t storageHas
    have hfst := resolve_fst db token t
    rcases hp : resolveSessionFromToken db token t with ⟨db1, r⟩
    rw [hp] at hfst
    simp only at hfst
    subst hfst
    cases r with
    | error err =>
      left
      simp only [completeUpload, hp]
      exact rfl
    | ok pr =>
      rcases pr with ⟨s, e⟩
      simp only [completeUpload, hp,
        show (touchSessions db (hashValue token) t).media = db.media from rfl]
      cases hfind : db.media.find? (fun m2 => m2.id = mId ∧ m2.sessionId = s.id) with
      | none =>
        left
        exact rfl
      | some m =>
        dsimp only
        by_cases hstat : m.status ≠ MediaStatus.pending
        · rw [if_pos hstat]
          left
          exact rfl
        · rw [if_neg hstat]
          by_cases hobj : (match m.storagePath with
            | some p => storageHas p
            | none => false) = true
          · rw [if_neg (by simp [hobj])]
            cases hfind2 : db.media.find?
                (fun m2 => m2.id = mId ∧ m2.sessionId = s.id ∧
                  m2.status = MediaStatus.pending) with
            | none =>
              left
              exact rfl
            | some target =>
              right
              refine ⟨s.id, ?_⟩
              rw [(facetOps_preserve_rest _ target.eventId target.uploaderName
                target.tags t).1]
              dsimp only
              simp only [List.map_map]
              apply List.map_congr_left
              intro m2 _
              by_cases hpm : m2.id = mId ∧ m2.sessionId = s.id ∧
                  m2.status = MediaStatus.pending <;>
                simp [hpm]
          · rw [if_pos (by simpa using hobj)]
            left
            exact rfl

/-! C1. No over-admission for participant slots. -/

/-- Outcome test: a join result is a success. -/
def isOkJoin : Except ErrCode SessionRow → Bool
  | Except.ok _ => true
  | Except.error _ => false

/-- Number of successful joins in a result list. -/
def okCount (rs : List (Except ErrCode SessionRow)) : Nat :=
  (rs.filter isOkJoin).length

/-- Number of EVENT_FULL rejections in a result list. -/
def fullCount (rs : List (Except ErrCode SessionRow)) : Nat :=
  (rs.filter (fun r => r = Except.error ErrCode.EVENT_FULL)).length

/-- Helper: counting successes steps through a cons. -/
theorem okCount_cons (r : Except ErrCode SessionRow) (rs : List (Except ErrCode SessionRow)) :
    okCount (r :: rs) = (if isOkJoin r then 1 else 0) + okCount rs := by
  cases hr : isOkJoin r <;> simp [okCount, List.filter_cons, hr, Nat.add_comm]

/-- Helper: counting EVENT_FULL rejections steps through a cons. -/
theorem fullCount_cons (r : Except ErrCode SessionRow) (rs : List (Except ErrCode SessionRow)) :
    fullCount (r :: rs) =
      (if r = Except.error ErrCode.EVENT_FULL then 1 else 0) + fullCount rs := by
  by_cases hr : r = Except.error ErrCode.EVENT_FULL <;>
    simp [fullCount, List.filter_cons, hr, Nat.add_comm]

/-- Helper: inserting the joined row raises the active-session count of the
event by exactly one. -/
theorem activeGuestCount_append (db : DbState) (e : EventRow) (req : JoinReq) :
    activeGuestCount { db with sessions := db.sessions ++ [joinRow e req] } e.id =
      activeGuestCount db e.id + 1 := by
  simp [activeGuestCount, joinRow, List.filter_append]

/-- Helper: one joinEvent call under an active, pinless event either admits
(count below ceiling: the row is appended) or rejects with EVENT_FULL (count
at the ceiling: state unchanged). -/
theorem joinEvent_step (db : DbState) (slug : String) (e : EventRow) (req : JoinReq)
    (hfind : getEventBySlug db slug = some e)
    (hactive : e.status = EventStatus.active)
    (hpin : e.pinHash = none) :
    (activeGuestCount db e.id < e.maxGuests →
      joinEvent db slug none req =
        ({ db with sessions := db.sessions ++ [joinRow e req] },
          Except.ok (joinRow e req))) ∧
    (¬ activeGuestCount db e.id < e.maxGuests →
      joinEvent db slug none req = (db, Except.error ErrCode.EVENT_FULL)) := by
  have hopen : eventOpenForJoins e = true := by simp [eventOpenForJoins, hactive]
  constructor
  · intro hlt
    simp only [joinEvent, hfind, hopen, hpin, joinInsert, if_pos hlt]
    simp
  · intro hge
    simp only [joinEvent, hfind, hopen, hpin, joinInsert, if_neg hge]
    simp

/-- Helper: sequential joins against an active, pinless event found by slug —
events are untouched, the final active count is the old count plus
min(requests, free slots), exactly min(requests, free slots) succeed, and the
rest fail with EVENT_FULL. -/
theorem runJoins_spec (slug : String) (e : EventRow)
    (hactive : e.status = EventStatus.active) (hpin : e.pinHash = none) :
    ∀ (reqs : List JoinReq) (db : DbState), getEventBySlug db slug = some e →
      (runJoins db slug none reqs).1.events = db.events ∧
      activeGuestCount (runJoins db slug none reqs).1 e.id =
        activeGuestCount db e.id +
          min reqs.length (e.maxGuests - activeGuestCount db e.id) ∧
      okCount (runJoins db slug none reqs).2 =
        min reqs.length (e.maxGuests - activeGuestCount db e.id) ∧
      fullCount (runJoins db slug none reqs).2 =
        reqs.length - (e.maxGuests - activeGuestCount db e.id) := by
  intro reqs
  induction reqs with
  | nil =>
    intro db hfind
    simp [runJoins, okCount, fullCount]
  | cons req rest ih =>
    intro db hfind
    by_cases hlt : activeGuestCount db e.id < e.maxGuests
    · have hstep := (joinEvent_step db slug e req hfind hactive hpin).1 hlt
      have hfind1 : getEventBySlug
          { db with sessions := db.sessions ++ [joinRow e req] } slug = some e := hfind
      obtain ⟨ih1, ih2, ih3, ih4⟩ :=
        ih { db with sessions := db.sessions ++ [joinRow e req] } hfind1
      rw [activeGuestCount_append] at ih2 ih3 ih4
      simp only [runJoins, hstep]
      refine ⟨ih1, ?_, ?_, ?_⟩
      · rw [ih2]
        simp only [List.length_cons]
        omega
      · rw [okCount_cons, ih3]
        simp only [isOkJoin, List.length_cons, if_true]
        omega
      · rw [fullCount_cons, ih4]
        simp only [List.length_cons]
        have hne : ¬ (Except.ok (joinRow e req) =
            (Except.error ErrCode.EVENT_FULL : Except ErrCode SessionRow)) := by
          simp
        rw [if_neg hne]
        omega
    · have hstep := (joinEvent_step db slug e req hfind hactive hpin).2 hlt
      obtain ⟨ih1, ih2, ih3, ih4⟩ := ih db hfind
      simp only [runJoins, hstep]
      refine ⟨ih1, ?_, ?_, ?_⟩
      · rw [ih2]
        simp only [List.length_cons]
        omega
      · rw [okCount_cons, ih3]
        simp only [isOkJoin, List.length_cons, Bool.false_eq_true, if_false]
        omega
      · rw [fullCount_cons, ih4]
        simp only [List.length_cons, if_true]
        omega

/-- C1: the atomic count-and-conditional-insert admits a caller exactly when
the count of active sessions is strictly below the ceiling C, and for any
serialization of K >= C join attempts against an initially empty active,
pinless event, exactly C succeed, the remaining K - C fail with EVENT_FULL,
and the count of active sessions never exceeds C at any transaction
boundary (after any prefix of the attempts). -/
theorem c1_no_overadmission (db : DbState) (slug : String) (e : EventRow)
    (reqs : List JoinReq)
    (hfind : getEventBySlug db slug = some e)
    (hactive : e.status = EventStatus.active)
    (hpin : e.pinHash = none)
    (hzero : activeGuestCount db e.id = 0)
    (hK : e.maxGuests ≤ reqs.length) :
    (∀ (db0 : DbState) (req0 : JoinReq),
      (joinInsert db0 e req0).2.isSome = true ↔
        activeGuestCount db0 e.id < e.maxGuests) ∧
    okCount (runJoins db slug none reqs).2 = e.maxGuests ∧
    fullCount (runJoins db slug none reqs).2 = reqs.length - e.maxGuests ∧
    (∀ n : Nat,
      activeGuestCount (runJoins db slug none (reqs.take n)).1 e.id ≤ e.maxGuests) := by
  refine ⟨?_, ?_, ?_, ?_⟩
  · intro db0 req0
    by_cases h : activeGuestCount db0 e.id < e.maxGuests <;>
      simp [joinInsert, h]
  · obtain ⟨_, _, h3, _⟩ := runJoins_spec slug e hactive hpin reqs db hfind
    rw [h3, hzero]
    omega
  · obtain ⟨_, _, _, h4⟩ := runJoins_spec slug e hactive hpin reqs db hfind
    rw [h4, hzero]
    omega
  · intro n
    obtain ⟨_, h2, _, _⟩ := runJoins_spec slug e hactive hpin (reqs.take n) db hfind
    rw [h2, hzero]
    omega

/-- Fixture: an active event with participant ceiling 2. -/
def eventDuo : EventRow :=
  { id := "e2", slug := "duo", status := EventStatus.active, maxGuests := 2,
    maxUploadsPerGuest := 1, compressionRaw := false, pinHash := none,
    eventDate := 0, endDate := 0, expiresAt := some 0 }

/-- Fixture state: eventDuo with no sessions yet. -/
def dbDuo : DbState :=
  { events := [eventDuo], sessions := [], media := [], organizers := [],
    uploaderFacets := [], tagFacets := [] }

/-- Fixture: three join attempts against the two-slot event. -/
def threeJoins : List JoinReq :=
  [ { newSessionId := "a", tokenHash := "ta", displayName := some "A", now := 1 },
    { newSessionId := "b", tokenHash := "tb", displayName := some "B", now := 2 },
    { newSessionId := "c", tokenHash := "tc", displayName := some "C", now := 3 } ]

/-- C1 witness: three serialized joins against a fresh two-slot event admit
exactly two. -/
theorem c1_no_overadmission_witness :
    okCount (runJoins dbDuo "duo" none threeJoins).2 = eventDuo.maxGuests :=
  (c1_no_overadmission dbDuo "duo" eventDuo threeJoins (by decide) rfl rfl
    (by decide) (by decide)).2.1

end EventCam
